import Mathlib

/-!
Shallow embedding of the Liquid MCP server (`mcp-server/src/index.ts`):
the tool dispatcher, the Storefront API query tools, the config loader,
the build-status checker and the resource reader.  External effects
(file system, environment variables, `JSON.parse`, `fetch`) are modelled
by an explicit environment record `Env`; every handler returns an
`Except String` value (an exception with its message) together with the
list of HTTP requests it issued.
-/

namespace StorefrontMcp

/-- JavaScript/JSON values, as produced by `JSON.parse` and consumed by the
    handlers.  Numbers are modelled as integers (all numbers occurring in
    this program are integral). -/
inductive Json where
  | null : Json
  | bool (b : Bool) : Json
  | num (n : Int) : Json
  | str (s : String) : Json
  | arr (elems : List Json) : Json
  | obj (fields : List (String × Json)) : Json
deriving Repr

/-- JavaScript truthiness of a value (`null`, `false`, `0`, `""` are falsy;
    every object and array is truthy). -/
def Json.truthy : Json → Bool
  | .null => false
  | .bool b => b
  | .num n => n != 0
  | .str s => s != ""
  | .arr _ => true
  | .obj _ => true

/-- JavaScript truthiness of a possibly-`undefined` value
    (`undefined` is falsy). -/
def jsTruthy : Option Json → Bool
  | none => false
  | some j => j.truthy

/-- JavaScript member access `v.k`: a field of an object, `undefined`
    otherwise (the handlers only access members of truthy values). -/
def Json.getField : Json → String → Option Json
  | .obj fields, k => fields.lookup k
  | _, _ => none

/-- `v || d` on a possibly-`undefined` value: `v` if truthy, else `d`. -/
def jsOr (v : Option Json) (d : Json) : Json :=
  match v with
  | some j => if j.truthy then j else d
  | none => d

/-- `s || d` for `string | undefined` (empty string is falsy). -/
def strOr (v : Option String) (d : String) : String :=
  match v with
  | some s => if s == "" then d else s
  | none => d

/-- Truthiness of a `string | undefined` value. -/
def strTruthy : Option String → Bool
  | none => false
  | some s => s != ""

/-- Minimal JSON string escaping, as performed by `JSON.stringify` on the
    strings this program produces. -/
def escapeJsonChar (c : Char) : String :=
  if c = '\"' then "\\\""
  else if c = '\\' then "\\\\"
  else if c = '\n' then "\\n"
  else if c = '\t' then "\\t"
  else if c = '\r' then "\\r"
  else String.singleton c

def escapeJson (s : String) : String :=
  String.join (s.toList.map escapeJsonChar)

def quoteJson (s : String) : String :=
  "\"" ++ escapeJson s ++ "\""

mutual
/-- `JSON.stringify(v)` (compact form, used for request bodies). -/
def Json.stringify : Json → String
  | .null => "null"
  | .bool b => cond b "true" "false"
  | .num n => toString n
  | .str s => quoteJson s
  | .arr elems => "[" ++ stringifyElems elems ++ "]"
  | .obj fields => "\x7b" ++ stringifyFields fields ++ "\x7d"

def stringifyElems : List Json → String
  | [] => ""
  | [x] => Json.stringify x
  | x :: xs => Json.stringify x ++ "," ++ stringifyElems xs

def stringifyFields : List (String × Json) → String
  | [] => ""
  | [(k, v)] => quoteJson k ++ ":" ++ Json.stringify v
  | (k, v) :: fs => quoteJson k ++ ":" ++ Json.stringify v ++ "," ++ stringifyFields fs
end

def indentSpaces : Nat → String
  | 0 => ""
  | n + 1 => " " ++ indentSpaces n

mutual
/-- `JSON.stringify(v, null, 2)` (two-space pretty printing), at a given
    current indentation depth. -/
def Json.prettyAt : Nat → Json → String
  | _, .null => "null"
  | _, .bool b => cond b "true" "false"
  | _, .num n => toString n
  | _, .str s => quoteJson s
  | _, .arr [] => "[]"
  | ind, .arr (x :: xs) =>
      "[\n" ++ prettyElems (ind + 2) (x :: xs) ++ "\n" ++ indentSpaces ind ++ "]"
  | _, .obj [] => "\x7b\x7d"
  | ind, .obj (f :: fs) =>
      "\x7b\n" ++ prettyFields (ind + 2) (f :: fs) ++ "\n" ++ indentSpaces ind ++ "\x7d"

def prettyElems : Nat → List Json → String
  | _, [] => ""
  | ind, [x] => indentSpaces ind ++ Json.prettyAt ind x
  | ind, x :: y :: xs =>
      indentSpaces ind ++ Json.prettyAt ind x ++ ",\n" ++ prettyElems ind (y :: xs)

def prettyFields : Nat → List (String × Json) → String
  | _, [] => ""
  | ind, [(k, v)] => indentSpaces ind ++ quoteJson k ++ ": " ++ Json.prettyAt ind v
  | ind, (k, v) :: g :: fs =>
      indentSpaces ind ++ quoteJson k ++ ": " ++ Json.prettyAt ind v ++ ",\n"
        ++ prettyFields ind (g :: fs)
end

/-- `JSON.stringify(v, null, 2)`. -/
def Json.pretty (j : Json) : String := Json.prettyAt 0 j

mutual
/-- JavaScript string conversion, as in a template literal
    `(dollar)\x7bv\x7d` (objects display as `[object Object]`, arrays join
    their elements with commas). -/
def jsDisplay : Json → String
  | .null => "null"
  | .bool b => cond b "true" "false"
  | .num n => toString n
  | .str s => s
  | .arr elems => jsDisplayList elems
  | .obj _ => "[object Object]"

def jsDisplayList : List Json → String
  | [] => ""
  | [x] => jsDisplay x
  | x :: y :: xs => jsDisplay x ++ "," ++ jsDisplayList (y :: xs)
end

/-- Template-literal interpolation of a possibly-`undefined` value
    (`undefined` displays as the string `undefined`). -/
def interp : Option Json → String
  | none => "undefined"
  | some j => jsDisplay j

/-! ### The external environment -/

/-- One outbound HTTP request, as handed to `fetch`. -/
structure HttpRequest where
  url : String
  method : String
  headers : List (String × String)
  body : String
deriving Repr

/-- Result of `fs.statSync`: the size and the `mtime.toISOString()` value. -/
structure StatInfo where
  size : Int
  mtimeIso : String
deriving Repr

/-- The process environment: `__dirname`, `process.platform`, the file
    system (`fs.existsSync` / `fs.readFileSync` / `fs.readdirSync` /
    `fs.statSync`), `process.env`, `JSON.parse`, and `fetch` composed with
    `response.json()`.  `Except.error m` models a thrown exception whose
    `message` is `m`. -/
structure Env where
  dirname : String
  platform : String
  fileExists : String → Bool
  fileContent : String → Except String String
  readdir : String → Except String (List String)
  stat : String → Except String StatInfo
  getenv : String → Option String
  jsonParse : String → Except String Json
  fetch : HttpRequest → Except String Json

/-- `path.join` of a base directory and a relative segment.  The segments
    this program joins contain no separators to normalise, so the join is
    plain concatenation with `/`. -/
def pathJoin (a b : String) : String := a ++ "/" ++ b

/-! ### Data model of tool results -/

/-- One `\x7btype: "text", text\x7d` content item. -/
structure TextContent where
  type : String
  text : String
deriving Repr

/-- A ToolResult: `\x7bcontent, isError\x7d`; a result constructed without
    an `isError` field has `isError = false`. -/
structure ToolResult where
  content : List TextContent
  isError : Bool := false
deriving Repr

/-- The structured error result the dispatch boundary produces from a
    thrown error with message `m`. -/
def errorResult (m : String) : ToolResult :=
  { content := [⟨"text", "Error: " ++ m⟩], isError := true }

/-- A handler outcome: the returned result or the thrown error message,
    together with the HTTP requests issued along the way. -/
def HandlerOut := Except String ToolResult × List HttpRequest

/-! ### Config loader (`loadConfig`) -/

/-- The fixed config-file path `path.join(__dirname, '../../.mcp-config.json')`. -/
def configFilePath (env : Env) : String :=
  pathJoin env.dirname "../../.mcp-config.json"

/-- The value the environment-variable branch of `loadConfig` produces:
    the config object when both required variables are truthy, otherwise
    the final `return null`. -/
def envVarConfig (env : Env) : Json :=
  match env.getenv "STOREFRONT_SHOP_DOMAIN", env.getenv "STOREFRONT_ACCESS_TOKEN" with
  | some d, some t =>
      if d != "" && t != "" then
        Json.obj [("shopDomain", .str d), ("accessToken", .str t),
                  ("apiVersion", .str (strOr (env.getenv "STOREFRONT_API_VERSION") "2024-01"))]
      else Json.null
  | _, _ => Json.null

/-- `loadConfig()`: if the config file exists, read and `JSON.parse` it and
    return the parsed value unvalidated (`config as StorefrontApiConfig`);
    a read or parse failure is swallowed and execution falls through to the
    environment variables; with no source, `null`. -/
def loadConfig (env : Env) : Json :=
  if env.fileExists (configFilePath env) then
    match env.fileContent (configFilePath env) with
    | .ok s =>
        match env.jsonParse s with
        | .ok j => j
        | .error _ => envVarConfig env
    | .error _ => envVarConfig env
  else envVarConfig env

/-! ### Remote call adapter and `query_storefront_api` -/

/-- The informational text returned when no configuration resolves. -/
def configMissingText : String :=
  "Storefront API configuration not found. Please set up your access token first."

/-- The single POST request `queryStorefrontApi` issues for a resolved
    config value, query and variables. -/
def storefrontRequest (config : Json) (query : Json) (vars : Option Json) : HttpRequest :=
  { url := "https://" ++ interp (config.getField "shopDomain") ++ "/api/"
             ++ interp (config.getField "apiVersion") ++ "/graphql.json"
    method := "POST"
    headers := [("Content-Type", "application/json"),
                ("X-Shopify-Storefront-Access-Token", interp (config.getField "accessToken"))]
    body := Json.stringify (.obj [("query", query), ("variables", jsOr vars (.obj []))]) }

/-- `queryStorefrontApi(query?, variables?)`: throws if `query` is falsy;
    soft-fails (non-error result, no request) if `loadConfig` yields a falsy
    value; otherwise issues one POST and either pretty-prints the response
    JSON or rethrows the failure as `API request failed: <message>`. -/
def queryStorefrontApi (env : Env) (query : Option Json) (vars : Option Json) : HandlerOut :=
  match query with
  | none => (.error "GraphQL query is required", [])
  | some q =>
      if q.truthy = false then (.error "GraphQL query is required", [])
      else
        let config := loadConfig env
        if config.truthy = false then
          (.ok { content := [⟨"text", configMissingText⟩] }, [])
        else
          let req := storefrontRequest config q vars
          match env.fetch req with
          | .ok data => (.ok { content := [⟨"text", Json.pretty data⟩] }, [req])
          | .error m => (.error ("API request failed: " ++ m), [req])

/-! ### The convenience query tools -/

/-- The fixed GraphQL document of `getProduct` (template literal,
    transcribed verbatim). -/
def productQueryDoc : String :=
  "\n      query getProduct($handle: String!) \x7b\n"
    ++ "        product(handle: $handle) \x7b\n"
    ++ "          id\n"
    ++ "          title\n"
    ++ "          description\n"
    ++ "          handle\n"
    ++ "          vendor\n"
    ++ "          priceRange \x7b\n"
    ++ "            minVariantPrice \x7b\n"
    ++ "              amount\n"
    ++ "              currencyCode\n"
    ++ "            \x7d\n"
    ++ "          \x7d\n"
    ++ "          images(first: 10) \x7b\n"
    ++ "            edges \x7b\n"
    ++ "              node \x7b\n"
    ++ "                url\n"
    ++ "                altText\n"
    ++ "              \x7d\n"
    ++ "            \x7d\n"
    ++ "          \x7d\n"
    ++ "        \x7d\n"
    ++ "      \x7d\n"
    ++ "    "

/-- The fixed GraphQL document of `getCollection`. -/
def collectionQueryDoc : String :=
  "\n      query getCollection($handle: String!, $first: Int!) \x7b\n"
    ++ "        collection(handle: $handle) \x7b\n"
    ++ "          id\n"
    ++ "          title\n"
    ++ "          description\n"
    ++ "          products(first: $first) \x7b\n"
    ++ "            edges \x7b\n"
    ++ "              node \x7b\n"
    ++ "                id\n"
    ++ "                title\n"
    ++ "                handle\n"
    ++ "                priceRange \x7b\n"
    ++ "                  minVariantPrice \x7b\n"
    ++ "                    amount\n"
    ++ "                    currencyCode\n"
    ++ "                  \x7d\n"
    ++ "                \x7d\n"
    ++ "              \x7d\n"
    ++ "            \x7d\n"
    ++ "          \x7d\n"
    ++ "        \x7d\n"
    ++ "      \x7d\n"
    ++ "    "

/-- The fixed GraphQL document of `searchProducts`. -/
def searchQueryDoc : String :=
  "\n      query searchProducts($query: String!, $first: Int!) \x7b\n"
    ++ "        products(first: $first, query: $query) \x7b\n"
    ++ "          edges \x7b\n"
    ++ "            node \x7b\n"
    ++ "              id\n"
    ++ "              title\n"
    ++ "              handle\n"
    ++ "              priceRange \x7b\n"
    ++ "                minVariantPrice \x7b\n"
    ++ "                  amount\n"
    ++ "                  currencyCode\n"
    ++ "                \x7d\n"
    ++ "              \x7d\n"
    ++ "            \x7d\n"
    ++ "          \x7d\n"
    ++ "        \x7d\n"
    ++ "      \x7d\n"
    ++ "    "

/-- `getProduct(handle?)`: throws when `handle` is falsy, otherwise
    delegates to `queryStorefrontApi` with the fixed document and
    variables `\x7bhandle\x7d`. -/
def getProduct (env : Env) (handle : Option Json) : HandlerOut :=
  match handle with
  | some h =>
      if h.truthy then
        queryStorefrontApi env (some (.str productQueryDoc)) (some (.obj [("handle", h)]))
      else (.error "Product handle is required", [])
  | none => (.error "Product handle is required", [])

/-- `getCollection(handle?, first = 20)`: throws when `handle` is falsy,
    otherwise delegates with variables `\x7bhandle, first\x7d` (the default
    parameter applies when `first` is `undefined`). -/
def getCollection (env : Env) (handle : Option Json) (first : Option Json) : HandlerOut :=
  match handle with
  | some h =>
      if h.truthy then
        queryStorefrontApi env (some (.str collectionQueryDoc))
          (some (.obj [("handle", h), ("first", first.getD (.num 20))]))
      else (.error "Collection handle is required", [])
  | none => (.error "Collection handle is required", [])

/-- `searchProducts(query?, first = 20)`: throws when `query` is falsy,
    otherwise delegates with variables `\x7bquery, first\x7d`. -/
def searchProducts (env : Env) (query : Option Json) (first : Option Json) : HandlerOut :=
  match query with
  | some q =>
      if q.truthy then
        queryStorefrontApi env (some (.str searchQueryDoc))
          (some (.obj [("query", q), ("first", first.getD (.num 20))]))
      else (.error "Search query is required", [])
  | none => (.error "Search query is required", [])

/-! ### The file-reading tools -/

/-- `buildWasm(target)`: pure text, no side effect. -/
def buildWasm (env : Env) (target : Json) : HandlerOut :=
  (.ok { content := [⟨"text",
    "To build the WebAssembly module, run:\n          \ncd storefront-api-wasm\n"
      ++ (if env.platform == "win32" then "build.bat" else "./build.sh")
      ++ "\n\nOr manually:\nwasm-pack build --target " ++ jsDisplay target
      ++ " --out-dir ../Liquid-main/assets/wasm --release\n\n"
      ++ "The build will create files in Liquid-main/assets/wasm/"⟩] }, [])

/-- `path.join` throws a TypeError when handed a non-string segment; this
    is the message prefix Node produces. -/
def pathTypeError : String :=
  "The \"path\" argument must be of type string."

/-- `readRustCode(file = 'lib.rs')`: reads
    `__dirname/../../storefront-api-wasm/src/<file>` and wraps it in a
    rust code block; read failures are rethrown as
    `Failed to read Rust file: <message>`. -/
def readRustCode (env : Env) (file : Json) : HandlerOut :=
  match file with
  | .str f =>
      match env.fileContent
          (pathJoin (pathJoin env.dirname "../../storefront-api-wasm/src") f) with
      | .ok c =>
          (.ok { content := [⟨"text", "# " ++ f ++ "\n\n```rust\n" ++ c ++ "\n```"⟩] }, [])
      | .error m => (.error ("Failed to read Rust file: " ++ m), [])
  | _ => (.error pathTypeError, [])

/-- `readJsWrapper(file)`: reads `__dirname/../../Liquid-main/assets/<file>`
    and wraps it in a javascript code block; read failures are rethrown as
    `Failed to read JavaScript file: <message>`.  A missing or non-string
    `file` makes `path.join` itself throw. -/
def readJsWrapper (env : Env) (file : Option Json) : HandlerOut :=
  match file with
  | some (.str f) =>
      match env.fileContent (pathJoin (pathJoin env.dirname "../../Liquid-main/assets") f) with
      | .ok c =>
          (.ok { content := [⟨"text", "# " ++ f ++ "\n\n```javascript\n" ++ c ++ "\n```"⟩] }, [])
      | .error m => (.error ("Failed to read JavaScript file: " ++ m), [])
  | _ => (.error pathTypeError, [])

/-! ### `checkBuildStatus` -/

/-- The fixed WebAssembly output directory. -/
def wasmOutDir (env : Env) : String :=
  pathJoin env.dirname "../../Liquid-main/assets/wasm"

/-- The two expected build artifacts. -/
def expectedFiles : List String :=
  ["storefront_api_wasm.js", "storefront_api_wasm_bg.wasm"]

/-- The per-file loop of `checkBuildStatus`: for each expected name,
    either a status entry (from `fs.statSync`) when the directory listing
    contains it, or the name pushed onto `missing`.  A `statSync` failure
    propagates as a thrown error. -/
def statusEntries (env : Env) (dir : String) (files : List String) :
    List String → Except String (List (String × Json) × List String)
  | [] => .ok ([], [])
  | f :: rest =>
      if files.contains f then
        match env.stat (pathJoin dir f) with
        | .error m => .error m
        | .ok st =>
            match statusEntries env dir files rest with
            | .error m => .error m
            | .ok (entries, missing) =>
                .ok ((f, Json.obj [("exists", .bool true), ("size", .num st.size),
                                   ("modified", .str st.mtimeIso)]) :: entries, missing)
      else
        match statusEntries env dir files rest with
        | .error m => .error m
        | .ok (entries, missing) => .ok (entries, f :: missing)

/-- The status object `checkBuildStatus` serialises: keys in insertion
    order `built`, `files`, `missing`, then one entry per expected file
    found.  When the output directory is missing, `built` is false and
    `missing` is the whole expected list. -/
def buildStatusJson (env : Env) : Except String Json :=
  if env.fileExists (wasmOutDir env) then
    match env.readdir (wasmOutDir env) with
    | .error m => .error m
    | .ok files =>
        match statusEntries env (wasmOutDir env) files expectedFiles with
        | .error m => .error m
        | .ok (entries, missing) =>
            .ok (Json.obj ([("built", .bool (missing.length == 0)),
                            ("files", .arr (files.map .str)),
                            ("missing", .arr (missing.map .str))] ++ entries))
  else
    .ok (Json.obj [("built", .bool false), ("files", .arr []),
                   ("missing", .arr (expectedFiles.map .str))])

/-- `checkBuildStatus()`: the status object pretty-printed as text. -/
def checkBuildStatus (env : Env) : HandlerOut :=
  match buildStatusJson env with
  | .ok status => (.ok { content := [⟨"text", Json.pretty status⟩] }, [])
  | .error m => (.error m, [])

/-! ### Resource reading -/

/-- Drops the first occurrence of `pat` from `l` (scanning left to right,
    identity when `pat` does not occur). -/
def dropFirstOccurrence (pat : List Char) : List Char → List Char
  | [] => []
  | c :: rest =>
      if pat.isPrefixOf (c :: rest) then (c :: rest).drop pat.length
      else c :: dropFirstOccurrence pat rest

/-- `String.prototype.replace` with a string pattern and empty replacement:
    removes the first occurrence only. -/
def replaceFirst (s pat : String) : String :=
  String.mk (dropFirstOccurrence pat.toList s.toList)

/-- The last path component: the suffix after the last `/`. -/
def basenameChars (l : List Char) : List Char :=
  l.foldl (fun acc c => if c = '/' then [] else acc ++ [c]) []

/-- `path.extname`: the part of the last path component from its last dot,
    empty when the component has no dot or only a leading dot. -/
def extname (p : String) : String :=
  let base := basenameChars p.toList
  match base.reverse.findIdx? (fun c => c = '.') with
  | none => ""
  | some i =>
      if i + 1 == base.length then ""
      else String.mk ('.' :: (base.reverse.take i).reverse)

/-- `getMimeType`: the fixed extension table, defaulting to `text/plain`. -/
def getMimeType (filePath : String) : String :=
  let ext := extname filePath
  if ext == ".rs" then "text/x-rust"
  else if ext == ".js" then "application/javascript"
  else if ext == ".toml" then "text/x-toml"
  else if ext == ".md" then "text/markdown"
  else if ext == ".json" then "application/json"
  else "text/plain"

/-- One `contents` item of a read-resource response. -/
structure ResourceContent where
  uri : String
  mimeType : String
  text : String
deriving Repr

/-- The read-resource handler: strips the first `file://` occurrence from
    the URI, reads the remaining path, and answers with the raw content and
    the extension-derived mimeType; an I/O failure is rethrown as
    `Failed to read resource: <message>`. -/
def readResource (env : Env) (uri : String) : Except String ResourceContent :=
  let filePath := replaceFirst uri "file://"
  match env.fileContent filePath with
  | .ok content => .ok { uri := uri, mimeType := getMimeType filePath, text := content }
  | .error m => .error ("Failed to read resource: " ++ m)

/-! ### The tool dispatcher -/

/-- The argument object of a tool call (`undefined` when absent). -/
def ToolArgs := List (String × Json)

/-- `args?.k`: `undefined` when the object itself or the key is absent. -/
def argGet (args : Option ToolArgs) (k : String) : Option Json :=
  match args with
  | none => none
  | some fields => List.lookup k fields

/-- The registered tool names, in registry order. -/
def toolNames : List String :=
  ["build_wasm", "query_storefront_api", "get_product", "get_collection",
   "search_products", "read_rust_code", "read_js_wrapper", "check_build_status"]

/-- The `switch` body of the call-tool handler: routes to the tool handler
    or throws `Unknown tool: <name>`. -/
def dispatchTool (env : Env) (name : String) (args : Option ToolArgs) : HandlerOut :=
  if name == "build_wasm" then
    buildWasm env (jsOr (argGet args "target") (.str "web"))
  else if name == "query_storefront_api" then
    queryStorefrontApi env (argGet args "query") (argGet args "variables")
  else if name == "get_product" then
    getProduct env (argGet args "handle")
  else if name == "get_collection" then
    getCollection env (argGet args "handle") (argGet args "first")
  else if name == "search_products" then
    searchProducts env (argGet args "query") (argGet args "first")
  else if name == "read_rust_code" then
    readRustCode env (jsOr (argGet args "file") (.str "lib.rs"))
  else if name == "read_js_wrapper" then
    readJsWrapper env (argGet args "file")
  else if name == "check_build_status" then
    checkBuildStatus env
  else
    (.error ("Unknown tool: " ++ name), [])

/-- `callTool`: the dispatch boundary.  Every thrown error is caught and
    converted to a structured error ToolResult; nothing escapes to the
    transport. -/
def callTool (env : Env) (name : String) (args : Option ToolArgs) :
    ToolResult × List HttpRequest :=
  match dispatchTool env name args with
  | (.ok r, reqs) => (r, reqs)
  | (.error m, reqs) => (errorResult m, reqs)

/-! ### Concrete environments for evaluation -/

/-- An environment with nothing configured: no files, no variables, no
    reachable network. -/
def emptyEnv : Env :=
  { dirname := "/srv/mcp-server/dist"
    platform := "linux"
    fileExists := fun _ => false
    fileContent := fun _ => .error "ENOENT: no such file or directory"
    readdir := fun _ => .error "ENOENT: no such file or directory"
    stat := fun _ => .error "ENOENT: no such file or directory"
    getenv := fun _ => none
    jsonParse := fun _ => .error "Unexpected end of JSON input"
    fetch := fun _ => .error "fetch failed" }

/-- The config-file path of `emptyEnv`-based environments. -/
def demoConfigPath : String := "/srv/mcp-server/dist/../../.mcp-config.json"

/-- A well-formed parsed config value. -/
def demoConfigJson : Json :=
  .obj [("shopDomain", .str "demo.myshopify.com"), ("accessToken", .str "tok123"),
        ("apiVersion", .str "2024-04")]

/-- The raw text of the demo config file. -/
def demoConfigText : String := Json.stringify demoConfigJson

/-- Environment variables carrying a second, distinct credential set. -/
def demoGetenv : String → Option String := fun k =>
  if k == "STOREFRONT_SHOP_DOMAIN" then some "envshop.myshopify.com"
  else if k == "STOREFRONT_ACCESS_TOKEN" then some "envtok"
  else none

/-- An environment where the config file exists, parses, and the
    environment variables are also set (to different values). -/
def fileEnv : Env :=
  { emptyEnv with
    fileExists := fun p => p == demoConfigPath
    fileContent := fun p =>
      if p == demoConfigPath then .ok demoConfigText
      else .error "ENOENT: no such file or directory"
    jsonParse := fun s =>
      if s == demoConfigText then .ok demoConfigJson
      else .error "Unexpected token o in JSON at position 1"
    getenv := demoGetenv }

/-- An environment with no config file but both variables set. -/
def envOnlyEnv : Env := { emptyEnv with getenv := demoGetenv }

/-- An environment where the config file exists but does not parse, and
    the variables are set. -/
def brokenFileEnv : Env :=
  { emptyEnv with
    fileExists := fun p => p == demoConfigPath
    fileContent := fun p =>
      if p == demoConfigPath then .ok "not json"
      else .error "ENOENT: no such file or directory"
    getenv := demoGetenv }

/-- An environment where the config file parses to the empty object. -/
def emptyObjFileEnv : Env :=
  { emptyEnv with
    fileExists := fun p => p == demoConfigPath
    fileContent := fun p =>
      if p == demoConfigPath then .ok "\x7b\x7d"
      else .error "ENOENT: no such file or directory"
    jsonParse := fun s =>
      if s == "\x7b\x7d" then .ok (.obj [])
      else .error "Unexpected token o in JSON at position 1"
    getenv := demoGetenv }

/-- An environment where the config file parses to JSON `null`. -/
def nullFileEnv : Env :=
  { emptyEnv with
    fileExists := fun p => p == demoConfigPath
    fileContent := fun p =>
      if p == demoConfigPath then .ok "null"
      else .error "ENOENT: no such file or directory"
    jsonParse := fun s =>
      if s == "null" then .ok .null
      else .error "Unexpected token o in JSON at position 1"
    getenv := demoGetenv }

/-- A GraphQL response body the demo endpoint answers with. -/
def demoResponseJson : Json :=
  .obj [("data", .obj [("shop", .obj [("name", .str "Demo Shop")])])]

/-- An environment with variable-based config and a reachable endpoint. -/
def configuredEnv : Env :=
  { emptyEnv with
    getenv := demoGetenv
    fetch := fun r =>
      if r.url == "https://envshop.myshopify.com/api/2024-01/graphql.json" then
        .ok demoResponseJson
      else .error "fetch failed" }

/-- The WebAssembly output directory of `emptyEnv`-based environments. -/
def demoWasmDir : String := "/srv/mcp-server/dist/../../Liquid-main/assets/wasm"

/-- An output directory holding only the JavaScript artifact. -/
def jsOnlyEnv : Env :=
  { emptyEnv with
    fileExists := fun p => p == demoWasmDir
    readdir := fun p =>
      if p == demoWasmDir then .ok ["storefront_api_wasm.js"]
      else .error "ENOENT: no such file or directory"
    stat := fun p =>
      if p == demoWasmDir ++ "/storefront_api_wasm.js" then
        .ok ⟨54321, "2024-02-01T08:00:00.000Z"⟩
      else .error "ENOENT: no such file or directory" }

/-- An output directory holding both expected artifacts. -/
def bothFilesEnv : Env :=
  { emptyEnv with
    fileExists := fun p => p == demoWasmDir
    readdir := fun p =>
      if p == demoWasmDir then .ok ["storefront_api_wasm.js", "storefront_api_wasm_bg.wasm"]
      else .error "ENOENT: no such file or directory"
    stat := fun p =>
      if p == demoWasmDir ++ "/storefront_api_wasm.js" then
        .ok ⟨54321, "2024-02-01T08:00:00.000Z"⟩
      else if p == demoWasmDir ++ "/storefront_api_wasm_bg.wasm" then
        .ok ⟨99999, "2024-02-01T08:00:05.000Z"⟩
      else .error "ENOENT: no such file or directory" }

/-- A file system holding one Rust source file for resource reading. -/
def resourceEnv : Env :=
  { emptyEnv with
    fileContent := fun p =>
      if p == "storefront-api-wasm/src/lib.rs" then .ok "// rust source\nfn main() \x7b\x7d\n"
      else .error "ENOENT: no such file or directory" }

/-! ## Claim theorems -/

/-- C1: the call-tool dispatcher always returns a ToolResult (`callTool` is
    total by construction) and converts every handler failure — thrown
    error, missing required argument, file-read failure, network failure —
    at the dispatch boundary into
    `\x7bisError: true, content: [\x7btype: "text", text: "Error: <message>"\x7d]\x7d`,
    so no exception reaches the transport. -/
theorem callTool_converts_handler_failures (env : Env) (name : String)
    (args : Option ToolArgs) (m : String) (reqs : List HttpRequest)
    (h : dispatchTool env name args = (Except.error m, reqs)) :
    callTool env name args
      = ({ content := [⟨"text", "Error: " ++ m⟩], isError := true }, reqs) := by
  unfold callTool
  rw [h]
  rfl

/-- Witness for C1: a concrete failing dispatch (the unknown name `nope`)
    comes back as a structured error result. -/
theorem callTool_converts_handler_failures_witness :
    callTool emptyEnv "nope" none
      = ({ content := [⟨"text", "Error: Unknown tool: nope"⟩], isError := true }, []) :=
  callTool_converts_handler_failures emptyEnv "nope" none "Unknown tool: nope" [] rfl

/-- C2: calling any name outside the tool registry returns an error
    ToolResult whose text carries `Unknown tool: <name>`, with no request
    issued and the process still alive (a result is returned). -/
theorem callTool_unknown_tool (env : Env) (name : String) (args : Option ToolArgs)
    (h : name ∉ toolNames) :
    callTool env name args = (errorResult ("Unknown tool: " ++ name), []) := by
  simp only [toolNames, List.mem_cons, List.not_mem_nil, or_false, not_or] at h
  obtain ⟨h1, h2, h3, h4, h5, h6, h7, h8⟩ := h
  simp [callTool, dispatchTool, errorResult, h1, h2, h3, h4, h5, h6, h7, h8]

/-- Witness for C2 at the name `unknown_tool_x` with empty arguments. -/
theorem callTool_unknown_tool_witness :
    "unknown_tool_x" ∉ toolNames ∧
    callTool emptyEnv "unknown_tool_x" (some [])
      = (errorResult ("Unknown tool: " ++ "unknown_tool_x"), []) :=
  ⟨by decide, callTool_unknown_tool emptyEnv "unknown_tool_x" (some []) (by decide)⟩

/-- C3: each tool with a required argument fails when that argument is
    absent — `get_product` without `handle` carries
    `Product handle is required`, `get_collection` without `handle`
    carries `Collection handle is required`, `search_products` without
    `query` carries `Search query is required`, `query_storefront_api`
    without `query` carries `GraphQL query is required` — each as an
    `isError` result, and in every case no HTTP request is made. -/
theorem required_argument_missing_is_error (env : Env) (args : Option ToolArgs)
    (hh : argGet args "handle" = none) (hq : argGet args "query" = none) :
    callTool env "get_product" args = (errorResult "Product handle is required", [])
  ∧ callTool env "get_collection" args = (errorResult "Collection handle is required", [])
  ∧ callTool env "search_products" args = (errorResult "Search query is required", [])
  ∧ callTool env "query_storefront_api" args
      = (errorResult "GraphQL query is required", []) := by
  refine ⟨?_, ?_, ?_, ?_⟩ <;>
    simp [callTool, dispatchTool, getProduct, getCollection, searchProducts,
          queryStorefrontApi, hh, hq]

/-- Witness for C3: the four tools called with the empty argument object. -/
theorem required_argument_missing_is_error_witness :
    callTool emptyEnv "get_product" (some []) = (errorResult "Product handle is required", [])
  ∧ callTool emptyEnv "get_collection" (some [])
      = (errorResult "Collection handle is required", [])
  ∧ callTool emptyEnv "search_products" (some [])
      = (errorResult "Search query is required", [])
  ∧ callTool emptyEnv "query_storefront_api" (some [])
      = (errorResult "GraphQL query is required", []) :=
  required_argument_missing_is_error emptyEnv (some []) rfl rfl

/-- C4: with a (truthy) query but no resolvable configuration — no config
    file and no shop-domain variable — `query_storefront_api` returns a
    non-error result (`isError = false`) whose text states the Storefront
    API configuration is not found, and issues no HTTP request. -/
theorem queryStorefrontApi_soft_fails_without_config (env : Env) (q : Json)
    (vars : Option Json) (hq : q.truthy = true)
    (hfile : env.fileExists (configFilePath env) = false)
    (hdom : env.getenv "STOREFRONT_SHOP_DOMAIN" = none) :
    queryStorefrontApi env (some q) vars
      = (Except.ok { content := [⟨"text", configMissingText⟩], isError := false }, []) := by
  have hcfg : loadConfig env = Json.null := by
    simp [loadConfig, envVarConfig, hfile, hdom]
  simp [queryStorefrontApi, hq, hcfg]
  intro hcontra
  simp [Json.truthy] at hcontra

/-- Witness for C4: the query `\x7b shop \x7b name \x7d \x7d` against the
    unconfigured environment. -/
theorem queryStorefrontApi_soft_fails_without_config_witness :
    queryStorefrontApi emptyEnv (some (.str "\x7b shop \x7b name \x7d \x7d")) none
      = (Except.ok { content := [⟨"text", configMissingText⟩], isError := false }, []) :=
  queryStorefrontApi_soft_fails_without_config emptyEnv
    (.str "\x7b shop \x7b name \x7d \x7d") none rfl rfl rfl

/-- C5: `loadConfig` resolves in a fixed priority order, first match wins:
    (1) the local JSON config file — when it exists, reads and parses, the
    parsed value is the result and the environment variables are not
    consulted; a read or parse failure is silently swallowed and treated
    as absent; (2) the two required variables `STOREFRONT_SHOP_DOMAIN` and
    `STOREFRONT_ACCESS_TOKEN`, with `STOREFRONT_API_VERSION` optional and
    defaulting to `2024-01`; with neither source the result is absent
    (`null`).  The result is a pure function of the current environment:
    nothing is cached across calls. -/
theorem loadConfig_resolution_order (env : Env) :
    (∀ s j, env.fileExists (configFilePath env) = true →
       env.fileContent (configFilePath env) = Except.ok s →
       env.jsonParse s = Except.ok j → loadConfig env = j)
  ∧ (∀ d t, env.fileExists (configFilePath env) = false →
       env.getenv "STOREFRONT_SHOP_DOMAIN" = some d → d ≠ "" →
       env.getenv "STOREFRONT_ACCESS_TOKEN" = some t → t ≠ "" →
       loadConfig env
         = .obj [("shopDomain", .str d), ("accessToken", .str t),
                 ("apiVersion", .str (strOr (env.getenv "STOREFRONT_API_VERSION") "2024-01"))])
  ∧ (∀ s m d t, env.fileExists (configFilePath env) = true →
       env.fileContent (configFilePath env) = Except.ok s →
       env.jsonParse s = Except.error m →
       env.getenv "STOREFRONT_SHOP_DOMAIN" = some d → d ≠ "" →
       env.getenv "STOREFRONT_ACCESS_TOKEN" = some t → t ≠ "" →
       loadConfig env
         = .obj [("shopDomain", .str d), ("accessToken", .str t),
                 ("apiVersion", .str (strOr (env.getenv "STOREFRONT_API_VERSION") "2024-01"))])
  ∧ (env.fileExists (configFilePath env) = false →
       strTruthy (env.getenv "STOREFRONT_SHOP_DOMAIN") = false
     ∨ strTruthy (env.getenv "STOREFRONT_ACCESS_TOKEN") = false →
       loadConfig env = .null) := by
  refine ⟨?_, ?_, ?_, ?_⟩
  · intro s j hex hc hp
    simp [loadConfig, hex, hc, hp]
  · intro d t hex hd hdne ht htne
    simp [loadConfig, hex, envVarConfig, hd, ht, hdne, htne]
  · intro s m d t hex hc hp hd hdne ht htne
    simp [loadConfig, hex, hc, hp, envVarConfig, hd, ht, hdne, htne]
  · intro hex hfalsy
    rcases hd : env.getenv "STOREFRONT_SHOP_DOMAIN" with _ | d
    · simp [loadConfig, hex, envVarConfig, hd]
    · rcases ht : env.getenv "STOREFRONT_ACCESS_TOKEN" with _ | t
      · simp [loadConfig, hex, envVarConfig, hd, ht]
      · rw [hd, ht] at hfalsy
        simp only [strTruthy] at hfalsy
        rcases hfalsy with hf | hf <;>
          simp_all [loadConfig, hex, envVarConfig, hd, ht]

/-- Witness for C5: the file wins over the set variables; with no file the
    variables apply with the default api version; a file that fails to
    parse falls back to the variables; with nothing, `null`. -/
theorem loadConfig_resolution_order_witness :
    loadConfig fileEnv = demoConfigJson
  ∧ loadConfig envOnlyEnv
      = .obj [("shopDomain", .str "envshop.myshopify.com"), ("accessToken", .str "envtok"),
              ("apiVersion", .str "2024-01")]
  ∧ loadConfig brokenFileEnv
      = .obj [("shopDomain", .str "envshop.myshopify.com"), ("accessToken", .str "envtok"),
              ("apiVersion", .str "2024-01")]
  ∧ loadConfig emptyEnv = .null := by
  refine ⟨?_, ?_, ?_, ?_⟩
  · exact (loadConfig_resolution_order fileEnv).1 demoConfigText demoConfigJson rfl rfl rfl
  · exact (loadConfig_resolution_order envOnlyEnv).2.1 "envshop.myshopify.com" "envtok"
      rfl rfl (by decide) rfl (by decide)
  · exact (loadConfig_resolution_order brokenFileEnv).2.2.1 "not json"
      "Unexpected end of JSON input" "envshop.myshopify.com" "envtok"
      rfl rfl rfl rfl (by decide) rfl (by decide)
  · exact (loadConfig_resolution_order emptyEnv).2.2.2 rfl (Or.inl rfl)

/-- C6: with a truthy query and a resolved (truthy) config,
    `queryStorefrontApi` performs exactly one POST to
    `https://<shopDomain>/api/<apiVersion>/graphql.json` with headers
    `Content-Type: application/json` and
    `X-Shopify-Storefront-Access-Token: <token>` and JSON body
    `\x7bquery, variables\x7d` (variables defaulting to the empty object);
    a successful response is returned pretty-printed as the result text,
    and any network or JSON-decode failure becomes the error
    `API request failed: <message>`.  The request list is the same
    singleton in both outcomes: nothing is retried. -/
theorem queryStorefrontApi_single_post (env : Env) (q : Json) (vars : Option Json)
    (hq : q.truthy = true) (hc : (loadConfig env).truthy = true) :
    (queryStorefrontApi env (some q) vars).2
        = [storefrontRequest (loadConfig env) q vars]
  ∧ (storefrontRequest (loadConfig env) q vars).method = "POST"
  ∧ (storefrontRequest (loadConfig env) q vars).url
        = "https://" ++ interp ((loadConfig env).getField "shopDomain") ++ "/api/"
            ++ interp ((loadConfig env).getField "apiVersion") ++ "/graphql.json"
  ∧ (storefrontRequest (loadConfig env) q vars).headers
        = [("Content-Type", "application/json"),
           ("X-Shopify-Storefront-Access-Token",
             interp ((loadConfig env).getField "accessToken"))]
  ∧ (storefrontRequest (loadConfig env) q vars).body
        = Json.stringify (.obj [("query", q), ("variables", jsOr vars (.obj []))])
  ∧ (∀ data, env.fetch (storefrontRequest (loadConfig env) q vars) = Except.ok data →
       (queryStorefrontApi env (some q) vars).1
         = Except.ok { content := [⟨"text", Json.pretty data⟩], isError := false })
  ∧ (∀ m, env.fetch (storefrontRequest (loadConfig env) q vars) = Except.error m →
       (queryStorefrontApi env (some q) vars).1
         = Except.error ("API request failed: " ++ m)) := by
  refine ⟨?_, rfl, rfl, rfl, rfl, ?_, ?_⟩
  · rcases hf : env.fetch (storefrontRequest (loadConfig env) q vars) with m | data <;>
      simp [queryStorefrontApi, hq, hc, hf]
  · intro data hf
    simp [queryStorefrontApi, hq, hc, hf]
  · intro m hf
    simp [queryStorefrontApi, hq, hc, hf]

/-- Witness for C6: the variable-configured environment with a reachable
    endpoint; both the request shape and the pretty-printed success are
    evaluated concretely, and a failing fetch on a second environment
    yields the wrapped error. -/
theorem queryStorefrontApi_single_post_witness :
    (queryStorefrontApi configuredEnv (some (.str "\x7b shop \x7b name \x7d \x7d")) none).2
        = [{ url := "https://envshop.myshopify.com/api/2024-01/graphql.json"
             method := "POST"
             headers := [("Content-Type", "application/json"),
                         ("X-Shopify-Storefront-Access-Token", "envtok")]
             body := "\x7b\"query\":\"\x7b shop \x7b name \x7d \x7d\",\"variables\":\x7b\x7d\x7d" }]
  ∧ (queryStorefrontApi configuredEnv (some (.str "\x7b shop \x7b name \x7d \x7d")) none).1
        = Except.ok
            { content :=
                [⟨"text",
                  "\x7b\n  \"data\": \x7b\n    \"shop\": \x7b\n      \"name\": \"Demo Shop\"\n    \x7d\n  \x7d\n\x7d"⟩]
              isError := false }
  ∧ (queryStorefrontApi envOnlyEnv (some (.str "\x7b shop \x7b name \x7d \x7d")) none).1
        = Except.error ("API request failed: " ++ "fetch failed") := by
  have h1 := queryStorefrontApi_single_post configuredEnv
    (.str "\x7b shop \x7b name \x7d \x7d") none rfl rfl
  have h2 := queryStorefrontApi_single_post envOnlyEnv
    (.str "\x7b shop \x7b name \x7d \x7d") none rfl rfl
  refine ⟨?_, ?_, ?_⟩
  · exact h1.1
  · exact h1.2.2.2.2.2.1 demoResponseJson rfl
  · exact h2.2.2.2.2.2.2 "fetch failed" rfl

/-- C7: `check_build_status` reports `built: true` iff both expected files
    are present in the fixed output directory.  With only
    `storefront_api_wasm.js` listed it reports `built: false` and
    `missing: ["storefront_api_wasm_bg.wasm"]`; with both listed it reports
    `built: true`, `missing: []`, and one entry per file carrying
    `exists: true`, its numeric `stat` size and its
    `mtime.toISOString()` timestamp. -/
theorem checkBuildStatus_reports (env : Env) (files : List String)
    (stJs stWasm : StatInfo) :
    (env.fileExists (wasmOutDir env) = true →
     env.readdir (wasmOutDir env) = Except.ok files →
     "storefront_api_wasm.js" ∈ files →
     "storefront_api_wasm_bg.wasm" ∉ files →
     env.stat (pathJoin (wasmOutDir env) "storefront_api_wasm.js") = Except.ok stJs →
     buildStatusJson env
       = Except.ok (.obj
           [("built", .bool false),
            ("files", .arr (files.map .str)),
            ("missing", .arr [.str "storefront_api_wasm_bg.wasm"]),
            ("storefront_api_wasm.js",
              .obj [("exists", .bool true), ("size", .num stJs.size),
                    ("modified", .str stJs.mtimeIso)])]))
  ∧ (env.fileExists (wasmOutDir env) = true →
     env.readdir (wasmOutDir env) = Except.ok files →
     "storefront_api_wasm.js" ∈ files →
     "storefront_api_wasm_bg.wasm" ∈ files →
     env.stat (pathJoin (wasmOutDir env) "storefront_api_wasm.js") = Except.ok stJs →
     env.stat (pathJoin (wasmOutDir env) "storefront_api_wasm_bg.wasm") = Except.ok stWasm →
     buildStatusJson env
       = Except.ok (.obj
           [("built", .bool true),
            ("files", .arr (files.map .str)),
            ("missing", .arr []),
            ("storefront_api_wasm.js",
              .obj [("exists", .bool true), ("size", .num stJs.size),
                    ("modified", .str stJs.mtimeIso)]),
            ("storefront_api_wasm_bg.wasm",
              .obj [("exists", .bool true), ("size", .num stWasm.size),
                    ("modified", .str stWasm.mtimeIso)])])) := by
  constructor
  · intro hex hdir hjs hwasm hstj
    simp [buildStatusJson, statusEntries, expectedFiles, hex, hdir, hjs, hwasm, hstj]
  · intro hex hdir hjs hwasm hstj hstw
    simp [buildStatusJson, statusEntries, expectedFiles, hex, hdir, hjs, hwasm, hstj, hstw]

/-- Witness for C7: a directory listing only the JavaScript artifact and a
    directory listing both, with concrete sizes and timestamps. -/
theorem checkBuildStatus_reports_witness :
    buildStatusJson jsOnlyEnv
      = Except.ok (.obj
          [("built", .bool false),
           ("files", .arr [.str "storefront_api_wasm.js"]),
           ("missing", .arr [.str "storefront_api_wasm_bg.wasm"]),
           ("storefront_api_wasm.js",
             .obj [("exists", .bool true), ("size", .num 54321),
                   ("modified", .str "2024-02-01T08:00:00.000Z")])])
  ∧ buildStatusJson bothFilesEnv
      = Except.ok (.obj
          [("built", .bool true),
           ("files", .arr [.str "storefront_api_wasm.js", .str "storefront_api_wasm_bg.wasm"]),
           ("missing", .arr []),
           ("storefront_api_wasm.js",
             .obj [("exists", .bool true), ("size", .num 54321),
                   ("modified", .str "2024-02-01T08:00:00.000Z")]),
           ("storefront_api_wasm_bg.wasm",
             .obj [("exists", .bool true), ("size", .num 99999),
                   ("modified", .str "2024-02-01T08:00:05.000Z")])]) := by
  constructor
  · exact (checkBuildStatus_reports jsOnlyEnv ["storefront_api_wasm.js"]
      ⟨54321, "2024-02-01T08:00:00.000Z"⟩ ⟨0, ""⟩).1 rfl rfl (by decide) (by decide) rfl
  · exact (checkBuildStatus_reports bothFilesEnv
      ["storefront_api_wasm.js", "storefront_api_wasm_bg.wasm"]
      ⟨54321, "2024-02-01T08:00:00.000Z"⟩ ⟨99999, "2024-02-01T08:00:05.000Z"⟩).2
      rfl rfl (by decide) (by decide) rfl rfl

/-- C8: `readResource` on a `file://` URI of a readable file round-trips:
    it strips the `file://` prefix (the first occurrence, per
    `String.prototype.replace`), reads the remaining path as-is, and
    returns the file's raw content with the mimeType given by the fixed
    extension table (`.rs` maps to `text/x-rust`, `.js` to
    `application/javascript`, `.toml` to `text/x-toml`, an extension
    outside the table to `text/plain`); an I/O failure becomes
    `Failed to read resource: <message>`. -/
theorem readResource_roundtrip (env : Env) (uri content m p : String) :
    (env.fileContent (replaceFirst uri "file://") = Except.ok content →
       readResource env uri
         = Except.ok { uri := uri, mimeType := getMimeType (replaceFirst uri "file://"),
                       text := content })
  ∧ (env.fileContent (replaceFirst uri "file://") = Except.error m →
       readResource env uri = Except.error ("Failed to read resource: " ++ m))
  ∧ (extname p = ".rs" → getMimeType p = "text/x-rust")
  ∧ (extname p = ".js" → getMimeType p = "application/javascript")
  ∧ (extname p = ".toml" → getMimeType p = "text/x-toml")
  ∧ (extname p ∉ ([".rs", ".js", ".toml", ".md", ".json"] : List String) →
       getMimeType p = "text/plain") := by
  refine ⟨?_, ?_, ?_, ?_, ?_, ?_⟩
  · intro h
    simp [readResource, h]
  · intro h
    simp [readResource, h]
  · intro h
    simp [getMimeType, h]
  · intro h
    simp [getMimeType, h]
  · intro h
    simp [getMimeType, h]
  · intro h
    simp only [List.mem_cons, List.not_mem_nil, or_false, not_or] at h
    obtain ⟨h1, h2, h3, h4, h5⟩ := h
    simp [getMimeType, h1, h2, h3, h4, h5]

/-- Witness for C8: reading `file://storefront-api-wasm/src/lib.rs` returns
    the raw file content as `text/x-rust`; a missing file is wrapped; the
    mime table is evaluated on concrete paths, including a `.liquid`
    default. -/
theorem readResource_roundtrip_witness :
    readResource resourceEnv "file://storefront-api-wasm/src/lib.rs"
      = Except.ok { uri := "file://storefront-api-wasm/src/lib.rs"
                    mimeType := "text/x-rust"
                    text := "// rust source\nfn main() \x7b\x7d\n" }
  ∧ readResource resourceEnv "file://does-not-exist.js"
      = Except.error ("Failed to read resource: " ++ "ENOENT: no such file or directory")
  ∧ getMimeType "Liquid-main/assets/storefront-api.js" = "application/javascript"
  ∧ getMimeType "storefront-api-wasm/Cargo.toml" = "text/x-toml"
  ∧ getMimeType "Liquid-main/layout/theme.liquid" = "text/plain" := by
  have h1 := readResource_roundtrip resourceEnv "file://storefront-api-wasm/src/lib.rs"
    "// rust source\nfn main() \x7b\x7d\n" "" "storefront-api-wasm/src/lib.rs"
  have h2 := readResource_roundtrip resourceEnv "file://does-not-exist.js" ""
    "ENOENT: no such file or directory" "Liquid-main/assets/storefront-api.js"
  have h3 := readResource_roundtrip resourceEnv "" "" "" "storefront-api-wasm/Cargo.toml"
  have h4 := readResource_roundtrip resourceEnv "" "" "" "Liquid-main/layout/theme.liquid"
  refine ⟨?_, ?_, ?_, ?_, ?_⟩
  · exact h1.1 rfl
  · exact h2.2.1 rfl
  · exact h2.2.2.2.1 rfl
  · exact h3.2.2.2.2.1 rfl
  · exact h4.2.2.2.2.2 (by decide)

/-- C9: for every truthy handle, query and first value, `getProduct`
    equals `queryStorefrontApi` on the fixed product document with
    variables `\x7bhandle\x7d`, `getCollection` equals it on the fixed
    collection document with variables `\x7bhandle, first\x7d`, and
    `searchProducts` equals it on the fixed search document with variables
    `\x7bquery, first\x7d`, where `first` defaults to `20` when omitted
    — the three tools contain no network logic of their own. -/
theorem query_tools_delegate (env : Env) (handleArg queryArg : Json)
    (first : Option Json) (hha : handleArg.truthy = true)
    (hqa : queryArg.truthy = true) :
    getProduct env (some handleArg)
      = queryStorefrontApi env (some (.str productQueryDoc))
          (some (.obj [("handle", handleArg)]))
  ∧ getCollection env (some handleArg) first
      = queryStorefrontApi env (some (.str collectionQueryDoc))
          (some (.obj [("handle", handleArg), ("first", first.getD (.num 20))]))
  ∧ getCollection env (some handleArg) none
      = queryStorefrontApi env (some (.str collectionQueryDoc))
          (some (.obj [("handle", handleArg), ("first", .num 20)]))
  ∧ searchProducts env (some queryArg) first
      = queryStorefrontApi env (some (.str searchQueryDoc))
          (some (.obj [("query", queryArg), ("first", first.getD (.num 20))]))
  ∧ searchProducts env (some queryArg) none
      = queryStorefrontApi env (some (.str searchQueryDoc))
          (some (.obj [("query", queryArg), ("first", .num 20)])) := by
  refine ⟨?_, ?_, ?_, ?_, ?_⟩ <;>
    simp [getProduct, getCollection, searchProducts, hha, hqa]

/-- Witness for C9: concrete handle and query strings, with `first` both
    given and omitted. -/
theorem query_tools_delegate_witness :
    getProduct emptyEnv (some (.str "red-shirt"))
      = queryStorefrontApi emptyEnv (some (.str productQueryDoc))
          (some (.obj [("handle", .str "red-shirt")]))
  ∧ getCollection emptyEnv (some (.str "summer")) (some (.num 5))
      = queryStorefrontApi emptyEnv (some (.str collectionQueryDoc))
          (some (.obj [("handle", .str "summer"), ("first", .num 5)]))
  ∧ searchProducts emptyEnv (some (.str "shirt")) none
      = queryStorefrontApi emptyEnv (some (.str searchQueryDoc))
          (some (.obj [("query", .str "shirt"), ("first", .num 20)])) := by
  have h1 := query_tools_delegate emptyEnv (.str "red-shirt") (.str "shirt")
    (some (.num 5)) rfl rfl
  have h2 := query_tools_delegate emptyEnv (.str "summer") (.str "shirt")
    (some (.num 5)) rfl rfl
  exact ⟨h1.1, h2.2.1, h1.2.2.2.2⟩

/-- C10: whenever the config file exists and parses, `loadConfig` returns
    the parsed JSON unvalidated and never consults the environment
    variables: a file parsing to `\x7b\x7d` yields the empty object as the
    config — `query_storefront_api` then proceeds and interpolates the
    missing fields into the URL as `undefined` rather than soft-failing —
    and a file parsing to `null` yields an absent config with no fallback
    to the (possibly fully set) environment variables. -/
theorem loadConfig_unvalidated (env : Env) (s : String)
    (hex : env.fileExists (configFilePath env) = true)
    (hc : env.fileContent (configFilePath env) = Except.ok s) :
    (env.jsonParse s = Except.ok (.obj []) →
       loadConfig env = .obj []
     ∧ (∀ q vars, q.truthy = true →
          (queryStorefrontApi env (some q) vars).2
            = [storefrontRequest (.obj []) q vars])
     ∧ (∀ q vars, (storefrontRequest (.obj []) q vars).url
            = "https://undefined/api/undefined/graphql.json"))
  ∧ (env.jsonParse s = Except.ok .null →
       loadConfig env = .null
     ∧ (∀ q vars, q.truthy = true →
          queryStorefrontApi env (some q) vars
            = (Except.ok { content := [⟨"text", configMissingText⟩], isError := false }, []))) := by
  constructor
  · intro hp
    have hcfg : loadConfig env = .obj [] := by simp [loadConfig, hex, hc, hp]
    refine ⟨hcfg, ?_, ?_⟩
    · intro q vars hq
      have hobj : (Json.obj ([] : List (String × Json))).truthy = true := rfl
      rcases hf : env.fetch (storefrontRequest (.obj []) q vars) with m | data <;>
        simp [queryStorefrontApi, hq, hcfg, hobj, hf]
    · intro q vars
      rfl
  · intro hp
    have hcfg : loadConfig env = .null := by simp [loadConfig, hex, hc, hp]
    refine ⟨hcfg, ?_⟩
    intro q vars hq
    simp [queryStorefrontApi, hq, hcfg]
    intro hcontra
    simp [Json.truthy] at hcontra

/-- Witness for C10: a config file holding `\x7b\x7d` and one holding
    `null`, both in environments whose variables carry a full credential
    set that is nevertheless ignored. -/
theorem loadConfig_unvalidated_witness :
    loadConfig emptyObjFileEnv = .obj []
  ∧ (queryStorefrontApi emptyObjFileEnv (some (.str "\x7b shop \x7b name \x7d \x7d")) none).2
      = [{ url := "https://undefined/api/undefined/graphql.json"
           method := "POST"
           headers := [("Content-Type", "application/json"),
                       ("X-Shopify-Storefront-Access-Token", "undefined")]
           body := "\x7b\"query\":\"\x7b shop \x7b name \x7d \x7d\",\"variables\":\x7b\x7d\x7d" }]
  ∧ demoGetenv "STOREFRONT_SHOP_DOMAIN" = some "envshop.myshopify.com"
  ∧ loadConfig nullFileEnv = .null
  ∧ queryStorefrontApi nullFileEnv (some (.str "\x7b shop \x7b name \x7d \x7d")) none
      = (Except.ok { content := [⟨"text", configMissingText⟩], isError := false }, []) := by
  have h1 := loadConfig_unvalidated emptyObjFileEnv "\x7b\x7d" rfl rfl
  have h2 := loadConfig_unvalidated nullFileEnv "null" rfl rfl
  refine ⟨(h1.1 rfl).1, ?_, rfl, (h2.2 rfl).1, (h2.2 rfl).2 (.str "\x7b shop \x7b name \x7d \x7d") none rfl⟩
  exact (h1.1 rfl).2.1 (.str "\x7b shop \x7b name \x7d \x7d") none rfl

end StorefrontMcp

